import Mathlib

/-!
Shallow embedding of the z-ingest broker core (src/app) and proofs about it.

Covered source files:
  src/app/core/buffer.py       (StreamBuffer)
  src/app/db/persistence.py    (PersistenceManager)
  src/app/core/connections.py  (ConnectionManager)
  src/app/api/websocket.py     (edge_relay_endpoint, receive_from_consumer)
  src/app/core/handlers.py     (handle_features, handle_raw_sample)
  src/app/db/models.py         (Prediction schema nullability)

Modelling conventions: timestamps are Nat tick counts; UUIDs are strings;
JSON payloads are flat key-to-literal maps (the code only ever reads one
top-level key of a payload, everything else is carried through untouched);
the database sink and the network are abstracted by Boolean success oracles
passed to the operations that perform I/O; points where the Python code
awaits are modelled by explicit parameters carrying what other tasks did
during the await (for example, records enqueued while a flush is in flight).
-/

/-- A JSON literal value, the leaves of payload objects. -/
inductive JLit where
  | null : JLit
  | num (n : Int) : JLit
  | str (s : String) : JLit
  | bool (b : Bool) : JLit
deriving DecidableEq, Repr

/-- A JSON object payload, modelled as a flat key-to-literal map. -/
abbrev JObj := List (String × JLit)

/-- Python dict.get(k) on a payload object: first binding of the key, if any. -/
def jGet (o : JObj) (k : String) : Option JLit :=
  (o.find? (fun p => p.1 == k)).map (fun p => p.2)

/-- The last n elements of a list, in order. A Python deque with maxlen m
always holds the last m appended elements, and the slice l[-n:] for n >= 1
is exactly this. -/
def takeLast (n : Nat) (l : List α) : List α :=
  (l.reverse.take n).reverse

/-- The Python slice l[-n:] for a nonnegative n. For n = 0 the index -0 is 0,
so l[-0:] = l[0:] is the WHOLE list, not the empty list; for n >= 1 it is the
last n elements. Faithful to CPython slicing, bug included. -/
def pySliceLastN (n : Nat) (l : List α) : List α :=
  if n = 0 then l else takeLast n l

/-- One in-memory sample, the dict built in StreamBuffer.add_sample
(src/app/core/buffer.py lines 60-67). -/
structure Sample where
  timestamp : Nat
  data : JObj
  session_id : String
  user_id : String
  sample_type : String
  metadata : JObj
deriving DecidableEq, Repr

/-- StreamBuffer state (src/app/core/buffer.py lines 28-36): a deque with
maxlen, held here oldest-first as the deque iterates. -/
structure StreamBuffer where
  maxlen : Nat
  buffer : List Sample
deriving DecidableEq, Repr

/-- StreamBuffer.__init__: empty deque with the given maxlen. -/
def mkStreamBuffer (maxlen : Nat) : StreamBuffer :=
  { maxlen := maxlen, buffer := [] }

/-- StreamBuffer.add_sample (src/app/core/buffer.py lines 38-68): deque append
with maxlen semantics, the oldest element is dropped when the deque is full,
so the deque always holds the last maxlen appended samples. The append never
fails. -/
def StreamBuffer.add_sample (b : StreamBuffer) (s : Sample) : StreamBuffer :=
  { b with buffer := takeLast b.maxlen (b.buffer ++ [s]) }

/-- Sequence of add_sample calls, in order. -/
def StreamBuffer.appendAll (b : StreamBuffer) (xs : List Sample) : StreamBuffer :=
  xs.foldl StreamBuffer.add_sample b

/-- StreamBuffer.get_last_n (src/app/core/buffer.py lines 93-121): early
return on an empty deque, filter by user_id then sample_type, then
list(reversed(filtered[-n:])) with genuine Python slice semantics. -/
def StreamBuffer.get_last_n (b : StreamBuffer) (n : Nat)
    (user_id : Option String) (sample_type : Option String) : List Sample :=
  if b.buffer.isEmpty then []
  else
    let filtered := b.buffer
    let filtered := match user_id with
      | none => filtered
      | some u => filtered.filter (fun s => s.user_id == u)
    let filtered := match sample_type with
      | none => filtered
      | some t => filtered.filter (fun s => s.sample_type == t)
    (pySliceLastN n filtered).reverse

lemma takeLast_nil (n : Nat) : takeLast n ([] : List α) = [] := by
  simp [takeLast]

lemma length_takeLast (n : Nat) (l : List α) :
    (takeLast n l).length = min n l.length := by
  simp [takeLast]

lemma takeLast_all (n : Nat) (l : List α) (h : l.length ≤ n) :
    takeLast n l = l := by
  have h' : l.reverse.length ≤ n := by simpa using h
  simp [takeLast, List.take_of_length_le h']

/-- Re-appending to an already truncated list truncates the same way as
appending to the original list: the key step for deque reasoning. -/
lemma takeLast_append_singleton (n : Nat) (l : List α) (x : α) :
    takeLast n (takeLast n l ++ [x]) = takeLast n (l ++ [x]) := by
  unfold takeLast
  simp only [List.reverse_append, List.reverse_cons, List.reverse_nil,
    List.nil_append, List.cons_append, List.reverse_reverse]
  cases n with
  | zero => simp
  | succ m =>
    simp only [List.take_succ_cons, List.take_take]
    have : min m (m + 1) = m := by omega
    rw [this]

lemma appendAll_buffer (xs : List Sample) (b : StreamBuffer) (full : List Sample)
    (hb : b.buffer = takeLast b.maxlen full) :
    (b.appendAll xs).buffer = takeLast b.maxlen (full ++ xs) ∧
      (b.appendAll xs).maxlen = b.maxlen := by
  induction xs generalizing b full with
  | nil => simpa [StreamBuffer.appendAll] using hb
  | cons x xs ih =>
    have hstep : (b.add_sample x).buffer = takeLast b.maxlen (full ++ [x]) := by
      simp [StreamBuffer.add_sample, hb, takeLast_append_singleton]
    have := ih (b.add_sample x) (full ++ [x]) (by simpa [StreamBuffer.add_sample] using hstep)
    simpa [StreamBuffer.appendAll, StreamBuffer.add_sample, List.append_assoc] using this

/-- C8. For every capacity C and sequence of appends, after the k-th append
the buffer holds exactly the last min(k, C) appended samples in append order,
and the size never exceeds C. -/
theorem streambuffer_bounded_ring (C : Nat) (samples : List Sample) (k : Nat)
    (hk : k ≤ samples.length) :
    ((mkStreamBuffer C).appendAll (samples.take k)).buffer
        = takeLast C (samples.take k) ∧
      ((mkStreamBuffer C).appendAll (samples.take k)).buffer.length = min k C ∧
      ((mkStreamBuffer C).appendAll (samples.take k)).buffer.length ≤ C := by
  have h := appendAll_buffer (samples.take k) (mkStreamBuffer C) []
    (by simp [mkStreamBuffer, takeLast_nil])
  have hbuf : ((mkStreamBuffer C).appendAll (samples.take k)).buffer
      = takeLast C (samples.take k) := by
    simpa [mkStreamBuffer] using h.1
  refine ⟨hbuf, ?_, ?_⟩
  · rw [hbuf, length_takeLast, List.length_take]
    omega
  · rw [hbuf, length_takeLast]
    omega

/-- Closed witness for the C8 theorem at a concrete capacity and append list. -/
theorem streambuffer_bounded_ring_witness :
    ((mkStreamBuffer 2).appendAll (([⟨0, [], "s", "u", "features", []⟩,
        ⟨1, [], "s", "u", "features", []⟩,
        ⟨2, [], "s", "u", "raw", []⟩] : List Sample).take 3)).buffer
      = takeLast 2 (([⟨0, [], "s", "u", "features", []⟩,
        ⟨1, [], "s", "u", "features", []⟩,
        ⟨2, [], "s", "u", "raw", []⟩] : List Sample).take 3) := by
  exact (streambuffer_bounded_ring 2 _ 3 (by decide)).1

/-- A concrete sample used for the get_last_n boundary evaluation. -/
def sampleU1 : Sample :=
  { timestamp := 1, data := [], session_id := "sid", user_id := "u1",
    sample_type := "features", metadata := [] }

/-- C5. Evaluation of get_last_n at the failing input n = 0: on a buffer
holding one retained sample, the code returns that sample (the whole buffer,
newest first) instead of the empty list, because the slice filtered[-0:] in
src/app/core/buffer.py line 121 is the whole list. The n-larger-than-count
half of the claim does hold, as the same evaluation at n = 5 shows. -/
theorem get_last_n_zero_returns_all :
    ((mkStreamBuffer 3).add_sample sampleU1).get_last_n 0 none none
        = [sampleU1] ∧
      [sampleU1] ≠ ([] : List Sample) ∧
      ((mkStreamBuffer 3).add_sample sampleU1).get_last_n 5 none none
        = [sampleU1] := by
  refine ⟨by decide, by decide, by decide⟩

/-- One queued prediction, the dict built in PersistenceManager.add_prediction
(src/app/db/persistence.py lines 115-125). session_id is optional because
callers pass msg.get with no default, which can be None. -/
structure PredictionRecord where
  timestamp : Nat
  session_id : Option String
  user_id : String
  prediction_type : String
  classifier_name : String
  data : JObj
  confidence : Option JLit
  classifier_version : Option String
  processing_time_ms : Option Int
deriving DecidableEq, Repr

/-- One queued raw sample, the dict built in PersistenceManager.add_raw_sample
(src/app/db/persistence.py lines 148-153). -/
structure RawRecord where
  timestamp : Nat
  session_id : Option String
  user_id : String
  data : JObj
deriving DecidableEq, Repr

/-- PersistenceManager state (src/app/db/persistence.py lines 28-51) together
with the observable history of its effects: records committed to the sink in
write order, and the count of flush failures written to the log. The deques
are held front-first. -/
structure PersistenceState where
  batch_size : Nat
  prediction_buffer : List PredictionRecord
  raw_sample_buffer : List RawRecord
  running : Bool
  ticker_active : Bool
  written_predictions : List PredictionRecord
  written_raw : List RawRecord
  flush_errors_logged : Nat
deriving DecidableEq, Repr

/-- PersistenceManager.flush_predictions (src/app/db/persistence.py lines
159-175). The commit round-trip is an await point: ok says whether the
commit succeeded, and inflight lists the records other tasks enqueued while
the flush was in flight (they sit in the freshly cleared deque when the
flush resumes). On failure the detached batch is re-added with
deque.extend, which appends it AFTER anything enqueued meanwhile. -/
def flush_predictions (ok : Bool) (inflight : List PredictionRecord)
    (s : PersistenceState) : PersistenceState :=
  if s.prediction_buffer.isEmpty then s
  else
    let records := s.prediction_buffer
    if ok then
      { s with prediction_buffer := inflight,
               written_predictions := s.written_predictions ++ records }
    else
      { s with prediction_buffer := inflight ++ records,
               flush_errors_logged := s.flush_errors_logged + 1 }

/-- PersistenceManager.flush_raw_samples (src/app/db/persistence.py lines
177-193), same shape as flush_predictions. -/
def flush_raw_samples (ok : Bool) (inflight : List RawRecord)
    (s : PersistenceState) : PersistenceState :=
  if s.raw_sample_buffer.isEmpty then s
  else
    let records := s.raw_sample_buffer
    if ok then
      { s with raw_sample_buffer := inflight,
               written_raw := s.written_raw ++ records }
    else
      { s with raw_sample_buffer := inflight ++ records,
               flush_errors_logged := s.flush_errors_logged + 1 }

/-- PersistenceManager.add_prediction (src/app/db/persistence.py lines
88-129): append to the deque, then flush synchronously when the length
reaches batch_size. ok is the sink outcome of that triggered flush. -/
def add_prediction (ok : Bool) (r : PredictionRecord)
    (s : PersistenceState) : PersistenceState :=
  let s := { s with prediction_buffer := s.prediction_buffer ++ [r] }
  if s.batch_size ≤ s.prediction_buffer.length then flush_predictions ok [] s
  else s

/-- PersistenceManager.add_raw_sample (src/app/db/persistence.py lines
131-157), same shape as add_prediction. -/
def add_raw_sample (ok : Bool) (r : RawRecord)
    (s : PersistenceState) : PersistenceState :=
  let s := { s with raw_sample_buffer := s.raw_sample_buffer ++ [r] }
  if s.batch_size ≤ s.raw_sample_buffer.length then flush_raw_samples ok []
    s
  else s

/-- PersistenceManager.flush_all (src/app/db/persistence.py lines 195-198):
flush predictions, then raw samples, each against its own sink outcome. -/
def flush_all (okp okr : Bool) (s : PersistenceState) : PersistenceState :=
  flush_raw_samples okr [] (flush_predictions okp [] s)

/-- PersistenceManager.stop (src/app/db/persistence.py lines 63-75): clear
the running flag, cancel the ticker task and await it (swallowing the
cancellation), then a final flush_all. -/
def persistence_stop (okp okr : Bool) (s : PersistenceState) : PersistenceState :=
  flush_all okp okr { s with running := false, ticker_active := false }

/-- A concrete queued prediction used in counterexamples and witnesses. -/
def recP1 : PredictionRecord :=
  { timestamp := 1, session_id := some "s1", user_id := "u1",
    prediction_type := "workload_edge", classifier_name := "edge_relay",
    data := [], confidence := none, classifier_version := none,
    processing_time_ms := none }

/-- A second concrete queued prediction, distinct from recP1. -/
def recP2 : PredictionRecord :=
  { recP1 with timestamp := 2, user_id := "u2" }

/-- A concrete queued raw sample. -/
def recR1 : RawRecord :=
  { timestamp := 1, session_id := some "s1", user_id := "u1", data := [] }

/-- A concrete persistence state holding one queued prediction. -/
def ps0 : PersistenceState :=
  { batch_size := 50, prediction_buffer := [recP1], raw_sample_buffer := [],
    running := true, ticker_active := true, written_predictions := [],
    written_raw := [], flush_errors_logged := 0 }

/-- C1 counterexample. With [recP1] queued and recP2 enqueued while the
failing flush is in flight, the code leaves the queue as [recP2, recP1]:
deque.extend puts the detached batch at the BACK, behind the record enqueued
meanwhile, so the queue does not hold the old order recP1-then-recP2 that
re-prepending to the front would give. -/
theorem flush_failure_goes_to_back_counterexample :
    (flush_predictions false [recP2] ps0).prediction_buffer = [recP2, recP1] ∧
      [recP2, recP1] ≠ [recP1, recP2] := by
  constructor
  · decide
  · decide

/-- C1 amended. On flush failure nothing is written, the failure is logged,
and the detached batch is re-appended at the BACK of its queue, after
anything enqueued while the flush was in flight; therefore when nothing was
enqueued during the flight the queue holds exactly the same records in the
same order as before the failed flush. Holds for both queues. -/
theorem flush_failure_requeues_batch (s : PersistenceState)
    (ip : List PredictionRecord) (ir : List RawRecord) :
    (s.prediction_buffer ≠ [] →
        (flush_predictions false ip s).prediction_buffer
          = ip ++ s.prediction_buffer ∧
        (flush_predictions false ip s).flush_errors_logged
          = s.flush_errors_logged + 1) ∧
      (flush_predictions false ip s).written_predictions
        = s.written_predictions ∧
      (flush_predictions false [] s).prediction_buffer = s.prediction_buffer ∧
      (s.raw_sample_buffer ≠ [] →
        (flush_raw_samples false ir s).raw_sample_buffer
          = ir ++ s.raw_sample_buffer ∧
        (flush_raw_samples false ir s).flush_errors_logged
          = s.flush_errors_logged + 1) ∧
      (flush_raw_samples false ir s).written_raw = s.written_raw ∧
      (flush_raw_samples false [] s).raw_sample_buffer = s.raw_sample_buffer := by
  refine ⟨?_, ?_, ?_, ?_, ?_, ?_⟩
  · intro h
    simp [flush_predictions, List.isEmpty_iff, h]
  · by_cases h : s.prediction_buffer = [] <;>
      simp [flush_predictions, List.isEmpty_iff, h]
  · by_cases h : s.prediction_buffer = [] <;>
      simp [flush_predictions, List.isEmpty_iff, h]
  · intro h
    simp [flush_raw_samples, List.isEmpty_iff, h]
  · by_cases h : s.raw_sample_buffer = [] <;>
      simp [flush_raw_samples, List.isEmpty_iff, h]
  · by_cases h : s.raw_sample_buffer = [] <;>
      simp [flush_raw_samples, List.isEmpty_iff, h]

/-- Closed witness for the C1 amended theorem at a concrete state. -/
theorem flush_failure_requeues_batch_witness :
    (flush_predictions false [recP2] ps0).prediction_buffer
      = [recP2] ++ ps0.prediction_buffer := by
  exact ((flush_failure_requeues_batch ps0 [recP2] []).1 (by decide)).1

/-- C4. The enqueue that brings a queue to batch_size or beyond flushes that
queue synchronously before returning: with a succeeding sink the whole queue,
new record included, is committed in order and the queue is left empty, so
the next enqueue observes an empty queue. Holds for both queues. -/
theorem threshold_enqueue_flushes (s : PersistenceState)
    (p : PredictionRecord) (r : RawRecord) :
    (s.batch_size ≤ s.prediction_buffer.length + 1 →
        (add_prediction true p s).prediction_buffer = [] ∧
        (add_prediction true p s).written_predictions
          = s.written_predictions ++ (s.prediction_buffer ++ [p])) ∧
      (s.batch_size ≤ s.raw_sample_buffer.length + 1 →
        (add_raw_sample true r s).raw_sample_buffer = [] ∧
        (add_raw_sample true r s).written_raw
          = s.written_raw ++ (s.raw_sample_buffer ++ [r])) := by
  constructor <;> intro h <;>
    simp [add_prediction, add_raw_sample, flush_predictions,
      flush_raw_samples, h]

/-- Closed witness for the C4 theorem: the 50th enqueue on a 49-record queue
with batch size 50 leaves the queue empty. -/
theorem threshold_enqueue_flushes_witness :
    (add_prediction true recP2
        { ps0 with prediction_buffer := List.replicate 49 recP1 }).prediction_buffer
      = [] := by
  exact ((threshold_enqueue_flushes
    { ps0 with prediction_buffer := List.replicate 49 recP1 } recP2 recR1).1
    (by decide)).1

/-- C3 counterexample. When the final flush of the prediction queue fails,
stop() returns with the queue still holding its record, not empty; and a
second stop() whose flush then succeeds writes the record, so the second
call is not effect-free. The records are retained and the failure logged,
but the queues-empty-after-stop part of the claim is false. -/
theorem persistence_stop_failure_counterexample :
    (persistence_stop false true ps0).prediction_buffer = [recP1] ∧
      [recP1] ≠ ([] : List PredictionRecord) ∧
      persistence_stop true true (persistence_stop false true ps0)
        ≠ persistence_stop false true ps0 := by
  refine ⟨by decide, by decide, by decide⟩

/-- C3 amended. stop() clears the running flag, cancels and awaits the
ticker, then performs a final flush of both queues. When the final flushes
succeed both queues are empty afterwards and every queued record has been
written in order; unconditionally, no record is dropped (written plus still
queued equals previously written plus previously queued, per queue) and a
failed final flush is logged; after a stop whose flushes succeeded, a second
stop() has no further effect. -/
theorem persistence_stop_drains (s : PersistenceState) (okp okr : Bool) :
    (persistence_stop okp okr s).running = false ∧
      (persistence_stop okp okr s).ticker_active = false ∧
      ((persistence_stop true true s).prediction_buffer = [] ∧
        (persistence_stop true true s).raw_sample_buffer = [] ∧
        (persistence_stop true true s).written_predictions
          = s.written_predictions ++ s.prediction_buffer ∧
        (persistence_stop true true s).written_raw
          = s.written_raw ++ s.raw_sample_buffer) ∧
      (persistence_stop okp okr s).written_predictions
          ++ (persistence_stop okp okr s).prediction_buffer
        = s.written_predictions ++ s.prediction_buffer ∧
      (persistence_stop okp okr s).written_raw
          ++ (persistence_stop okp okr s).raw_sample_buffer
        = s.written_raw ++ s.raw_sample_buffer ∧
      (okp = false → s.prediction_buffer ≠ [] →
        s.flush_errors_logged + 1
          ≤ (persistence_stop okp okr s).flush_errors_logged) ∧
      persistence_stop okp okr (persistence_stop true true s)
        = persistence_stop true true s := by
  by_cases hp : s.prediction_buffer = [] <;>
    by_cases hr : s.raw_sample_buffer = [] <;>
    cases okp <;> cases okr <;>
      simp [persistence_stop, flush_all, flush_predictions, flush_raw_samples,
        List.isEmpty_iff, hp, hr]

/-- Closed witness for the C3 amended theorem at a concrete state. -/
theorem persistence_stop_drains_witness :
    (persistence_stop false true ps0).running = false ∧
      ps0.flush_errors_logged + 1
        ≤ (persistence_stop false true ps0).flush_errors_logged := by
  exact ⟨(persistence_stop_drains ps0 false true).1,
    (persistence_stop_drains ps0 false true).2.2.2.2.2.1 rfl (by decide)⟩

/-- Python dict assignment d[k] = v: replace the binding in place when the
key exists, else append a new binding (insertion order preserved). -/
def dictSet (k : String) (v : Nat) : List (String × Nat) → List (String × Nat)
  | [] => [(k, v)]
  | (k', v') :: rest =>
      if k' = k then (k, v) :: rest else (k', v') :: dictSet k v rest

/-- Python dict lookup d.get(k): first binding of the key, if any. -/
def dictGet (k : String) : List (String × Nat) → Option Nat
  | [] => none
  | (k', v') :: rest => if k' = k then some v' else dictGet k rest

/-- ConnectionManager state (src/app/core/connections.py lines 20-23), with
connections named by opaque numeric handles, plus the observable history of
connections the manager itself closed (the code never closes any). -/
structure ConnectionManagerState where
  edges : List (String × Nat)
  consumers : List (String × Nat)
  closed_by_manager : List Nat
deriving DecidableEq, Repr

/-- ConnectionManager.connect_edge (src/app/core/connections.py lines 25-33):
a bare dict assignment self.edges[user_id] = websocket. No close, no check
for a prior connection. -/
def connect_edge (user_id : String) (conn : Nat)
    (m : ConnectionManagerState) : ConnectionManagerState :=
  { m with edges := dictSet user_id conn m.edges }

/-- ConnectionManager.disconnect_edge (src/app/core/connections.py lines
35-43): delete the entry if present; idempotent. -/
def disconnect_edge (user_id : String)
    (m : ConnectionManagerState) : ConnectionManagerState :=
  { m with edges := m.edges.filter (fun p => p.1 ≠ user_id) }

lemma dictGet_dictSet_self (k : String) (v : Nat) (d : List (String × Nat)) :
    dictGet k (dictSet k v d) = some v := by
  induction d with
  | nil => simp [dictSet, dictGet]
  | cons p rest ih =>
    by_cases h : p.1 = k <;> simp [dictSet, dictGet, h, ih]

lemma keys_dictSet (k : String) (v : Nat) (d : List (String × Nat)) :
    (dictSet k v d).map Prod.fst
      = if k ∈ d.map Prod.fst then d.map Prod.fst
        else d.map Prod.fst ++ [k] := by
  induction d with
  | nil => simp [dictSet]
  | cons p rest ih =>
    by_cases hk : p.1 = k
    · simp [dictSet, hk]
    · have hk' : ¬ k = p.1 := fun h => hk h.symm
      by_cases hm : k ∈ rest.map Prod.fst <;>
        simp [dictSet, hk, hk', hm, ih]

lemma dictSet_keys_nodup (k : String) (v : Nat) (d : List (String × Nat))
    (h : (d.map Prod.fst).Nodup) :
    ((dictSet k v d).map Prod.fst).Nodup := by
  rw [keys_dictSet]
  by_cases hm : k ∈ d.map Prod.fst
  · simpa [hm] using h
  · rw [if_neg hm, List.nodup_append]
    refine ⟨h, List.nodup_singleton k, ?_⟩
    intro a ha hb
    simp at hb
    exact hm (hb ▸ ha)

/-- A concrete connection manager state with one connected edge. -/
def cm0 : ConnectionManagerState :=
  { edges := [("u1", 1)], consumers := [], closed_by_manager := [] }

/-- C6 counterexample. User u1 already has edge connection 1; a second
connect_edge for u1 with connection 2 silently overwrites the map entry.
The prior connection 1 is never closed, contrary to the closed-first part of
the claim: the set of connections the manager closed stays empty. -/
theorem connect_edge_no_close_counterexample :
    (connect_edge "u1" 2 cm0).edges = [("u1", 2)] ∧
      (connect_edge "u1" 2 cm0).closed_by_manager = [] ∧
      (1 : Nat) ∉ (connect_edge "u1" 2 cm0).closed_by_manager := by
  refine ⟨by decide, by decide, by decide⟩

/-- C6 amended. connect_edge records the new connection under user_id,
silently replacing any prior edge connection for that user_id without
closing it (last-writer-wins, the prior socket is orphaned); the registry
always holds at most one edge connection per user_id, since key uniqueness
is preserved. -/
theorem connect_edge_last_writer_wins (m : ConnectionManagerState)
    (user_id : String) (conn : Nat)
    (h : (m.edges.map Prod.fst).Nodup) :
    dictGet user_id (connect_edge user_id conn m).edges = some conn ∧
      ((connect_edge user_id conn m).edges.map Prod.fst).Nodup ∧
      (connect_edge user_id conn m).closed_by_manager
        = m.closed_by_manager := by
  exact ⟨dictGet_dictSet_self user_id conn m.edges,
    dictSet_keys_nodup user_id conn m.edges h, rfl⟩

/-- Closed witness for the C6 amended theorem at a concrete registry. -/
theorem connect_edge_last_writer_wins_witness :
    dictGet "u1" (connect_edge "u1" 2 cm0).edges = some 2 ∧
      ((connect_edge "u1" 2 cm0).edges.map Prod.fst).Nodup ∧
      (connect_edge "u1" 2 cm0).closed_by_manager = cm0.closed_by_manager := by
  exact connect_edge_last_writer_wins cm0 "u1" 2 (by decide)

/-- The first-frame auth message of the edge WebSocket
(src/app/api/websocket.py lines 42-57): a JSON object whose fields are read
with dict.get, so each may be absent. -/
structure AuthMsg where
  api_key : Option String
  user_id : Option String
  device_info : Option JObj
deriving DecidableEq, Repr

/-- What asyncio.wait_for(receive_json, timeout=10.0) produced: either the
10 s timeout fired, or an auth message arrived in time. -/
inductive AuthInput where
  | timeout : AuthInput
  | received (a : AuthMsg) : AuthInput
deriving DecidableEq, Repr

/-- Observable outcome of the auth phase of edge_relay_endpoint
(src/app/api/websocket.py lines 33-62): either the socket was closed with a
code and reason, or the session proceeded. The Booleans record whether a
Session row was created, the connection registered, and auth_ack sent by the
time the phase ended. -/
structure AuthOutcome where
  close : Option (Nat × String)
  session_created : Bool
  registered : Bool
  auth_ack_sent : Bool
deriving DecidableEq, Repr

/-- Python truthiness of the user_id field: None and the empty string are
falsy, so the check if not user_id rejects both. -/
def pyTruthyStr : Option String → Bool
  | none => false
  | some s => s ≠ ""

/-- Auth phase of edge_relay_endpoint (src/app/api/websocket.py lines
33-62), in source order: timeout check, api_key check, user_id check, then
registration, Session row creation, and auth_ack. -/
def edge_auth (edge_api_key : String) : AuthInput → AuthOutcome
  | .timeout =>
      { close := some (1008, "Authentication timeout"),
        session_created := false, registered := false, auth_ack_sent := false }
  | .received a =>
      if a.api_key ≠ some edge_api_key then
        { close := some (1008, "Invalid API key"),
          session_created := false, registered := false, auth_ack_sent := false }
      else if ¬ pyTruthyStr a.user_id then
        { close := some (1008, "Missing user_id"),
          session_created := false, registered := false, auth_ack_sent := false }
      else
        { close := none,
          session_created := true, registered := true, auth_ack_sent := true }

/-- C7. Every authentication failure of the edge endpoint closes the socket
with code 1008 and is terminal, with no Session row created, no connection
registered and no auth_ack sent: no message within 10 s gives reason
Authentication timeout; an api_key different from the configured key gives
reason Invalid API key; a correct api_key with a missing user_id gives
reason Missing user_id. -/
theorem edge_auth_failures_close_1008 (key : String) (a : AuthMsg) :
    edge_auth key .timeout
        = { close := some (1008, "Authentication timeout"),
            session_created := false, registered := false,
            auth_ack_sent := false } ∧
      (a.api_key ≠ some key →
        edge_auth key (.received a)
          = { close := some (1008, "Invalid API key"),
              session_created := false, registered := false,
              auth_ack_sent := false }) ∧
      (a.api_key = some key → a.user_id = none →
        edge_auth key (.received a)
          = { close := some (1008, "Missing user_id"),
              session_created := false, registered := false,
              auth_ack_sent := false }) := by
  refine ⟨rfl, ?_, ?_⟩
  · intro h
    simp [edge_auth, h]
  · intro h hu
    simp [edge_auth, h, hu, pyTruthyStr]

/-- A concrete auth message carrying a wrong api_key. -/
def authWrongKey : AuthMsg :=
  { api_key := some "wrong", user_id := some "u1", device_info := none }

/-- A concrete auth message with the right key and no user_id. -/
def authNoUser : AuthMsg :=
  { api_key := some "K", user_id := none, device_info := none }

/-- Closed witness for the C7 theorem: a wrong-key message and a missing
user_id message, against the configured key "K". -/
theorem edge_auth_failures_close_1008_witness :
    edge_auth "K" (.received authWrongKey)
      = { close := some (1008, "Invalid API key"), session_created := false,
          registered := false, auth_ack_sent := false } ∧
    edge_auth "K" (.received authNoUser)
      = { close := some (1008, "Missing user_id"), session_created := false,
          registered := false, auth_ack_sent := false } := by
  exact ⟨(edge_auth_failures_close_1008 "K" authWrongKey).2.1 (by decide),
    (edge_auth_failures_close_1008 "K" authNoUser).2.2 rfl rfl⟩

/-- One decoded inbound frame of the authenticated edge message loop
(src/app/api/websocket.py lines 71-98). For features and raw frames the
Boolean oracle says whether the handler body (buffer append, topic publish,
persistence enqueue in src/app/core/handlers.py) raised; empty stands for a
frame with neither a bytes nor a text field, which the loop skips. -/
inductive EdgeMsg where
  | disconnect : EdgeMsg
  | features (handler_raises : Bool) : EdgeMsg
  | raw (handler_raises : Bool) : EdgeMsg
  | heartbeat : EdgeMsg
  | unknown (t : String) : EdgeMsg
  | empty : EdgeMsg
deriving DecidableEq, Repr

/-- Observable outcome of running the message loop over a finite inbound
trace: per-type success counters, the messages_failed counter the handlers
increment before re-raising, whether the except branch around the loop
logged an error, whether the finally block ran (deregistration, gauge
updates and end_session, so the session is over), and how many inbound
frames were consumed. -/
structure LoopResult where
  features_ok : Nat
  raw_ok : Nat
  heartbeat_acks : Nat
  unknown_logged : Nat
  failures_counted : Nat
  error_logged : Bool
  session_ended : Bool
  consumed : Nat
deriving DecidableEq, Repr

/-- The message loop of edge_relay_endpoint (src/app/api/websocket.py lines
69-114) over a finite trace of decoded frames. The try encloses the whole
while loop, so an exception re-raised by handle_features or handle_raw_sample
(src/app/core/handlers.py lines 67-69 and 117-119) leaves the loop: it is
logged by the except branch and the finally block tears the session down;
frames after it are never read. An exhausted trace means the session is
still running, waiting for its next frame. -/
def message_loop : List EdgeMsg → LoopResult
  | [] =>
      { features_ok := 0, raw_ok := 0, heartbeat_acks := 0,
        unknown_logged := 0, failures_counted := 0, error_logged := false,
        session_ended := false, consumed := 0 }
  | m :: rest =>
      match m with
      | .disconnect =>
          { features_ok := 0, raw_ok := 0, heartbeat_acks := 0,
            unknown_logged := 0, failures_counted := 0, error_logged := false,
            session_ended := true, consumed := 1 }
      | .features b =>
          if b then
            { features_ok := 0, raw_ok := 0, heartbeat_acks := 0,
              unknown_logged := 0, failures_counted := 1, error_logged := true,
              session_ended := true, consumed := 1 }
          else
            let r := message_loop rest
            { r with features_ok := r.features_ok + 1, consumed := r.consumed + 1 }
      | .raw b =>
          if b then
            { features_ok := 0, raw_ok := 0, heartbeat_acks := 0,
              unknown_logged := 0, failures_counted := 1, error_logged := true,
              session_ended := true, consumed := 1 }
          else
            let r := message_loop rest
            { r with raw_ok := r.raw_ok + 1, consumed := r.consumed + 1 }
      | .heartbeat =>
          let r := message_loop rest
          { r with heartbeat_acks := r.heartbeat_acks + 1,
                   consumed := r.consumed + 1 }
      | .unknown _ =>
          let r := message_loop rest
          { r with unknown_logged := r.unknown_logged + 1,
                   consumed := r.consumed + 1 }
      | .empty =>
          let r := message_loop rest
          { r with consumed := r.consumed + 1 }

/-- A frame is benign when it neither ends the loop nor raises: the loop
consumes it and goes on. -/
def benign : EdgeMsg → Bool
  | .disconnect => false
  | .features b => !b
  | .raw b => !b
  | .heartbeat => true
  | .unknown _ => true
  | .empty => true

/-- C2 counterexample. A features frame whose handler raises, followed by a
heartbeat: the loop consumes only the first frame, the heartbeat is never
answered, and the session is torn down — the single bad sample terminates
the session instead of the loop continuing to the next message. -/
theorem handler_error_ends_session_counterexample :
    (message_loop [.features true, .heartbeat]).consumed = 1 ∧
      (message_loop [.features true, .heartbeat]).heartbeat_acks = 0 ∧
      (message_loop [.features true, .heartbeat]).session_ended = true := by
  refine ⟨rfl, rfl, rfl⟩

/-- C2 amended. An exception raised inside handle_features or handle_raw
while processing one inbound frame is counted on the messages_failed metric
and re-raised; it is caught by the except branch around the WHOLE message
loop, so it is logged — but the loop exits rather than continuing: no later
frame is processed and the session is terminated, with the finally block
running the normal teardown. Benign earlier frames are unaffected. -/
theorem handler_error_ends_session (pre rest : List EdgeMsg)
    (hpre : ∀ m ∈ pre, benign m = true) (bad : EdgeMsg)
    (hbad : bad = .features true ∨ bad = .raw true) :
    (message_loop (pre ++ bad :: rest)).failures_counted = 1 ∧
      (message_loop (pre ++ bad :: rest)).error_logged = true ∧
      (message_loop (pre ++ bad :: rest)).session_ended = true ∧
      (message_loop (pre ++ bad :: rest)).consumed = pre.length + 1 := by
  induction pre with
  | nil =>
    rcases hbad with h | h <;> subst h <;>
      exact ⟨rfl, rfl, rfl, rfl⟩
  | cons m pre ih =>
    have hm : benign m = true := hpre m (List.mem_cons_self m pre)
    have hpre' : ∀ x ∈ pre, benign x = true :=
      fun x hx => hpre x (List.mem_cons_of_mem m hx)
    have ihr := ih hpre'
    cases m with
    | disconnect => simp [benign] at hm
    | features b =>
      cases b with
      | false =>
        simpa [message_loop] using
          ⟨ihr.1, ihr.2.1, ihr.2.2.1, by simp [ihr.2.2.2]⟩
      | true => simp [benign] at hm
    | raw b =>
      cases b with
      | false =>
        simpa [message_loop] using
          ⟨ihr.1, ihr.2.1, ihr.2.2.1, by simp [ihr.2.2.2]⟩
      | true => simp [benign] at hm
    | heartbeat =>
      simpa [message_loop] using
        ⟨ihr.1, ihr.2.1, ihr.2.2.1, by simp [ihr.2.2.2]⟩
    | unknown t =>
      simpa [message_loop] using
        ⟨ihr.1, ihr.2.1, ihr.2.2.1, by simp [ihr.2.2.2]⟩
    | empty =>
      simpa [message_loop] using
        ⟨ihr.1, ihr.2.1, ihr.2.2.1, by simp [ihr.2.2.2]⟩

/-- Closed witness for the C2 amended theorem: heartbeat, then a raising
raw frame, then a heartbeat that is never reached. -/
theorem handler_error_ends_session_witness :
    (message_loop ([.heartbeat] ++ EdgeMsg.raw true :: [.heartbeat])).session_ended
      = true := by
  exact (handler_error_ends_session [.heartbeat] [.heartbeat]
    (by intro m hm; simp at hm; subst hm; rfl) (.raw true) (Or.inr rfl)).2.2.1

/-- One inbound consumer JSON message (src/app/api/websocket.py lines
150-167): every field is read with dict.get, so each may be absent. -/
structure ConsumerMsg where
  type : Option String
  prediction_type : Option String
  classifier_name : Option String
  session_id : Option String
  data : Option JObj
  version : Option String
deriving DecidableEq, Repr

/-- Observable effects of one iteration of receive_from_consumer for one
inbound message: the full object handed to send_to_edge, if any, and the
record handed to persistence.add_prediction, if any. -/
structure ConsumerStepResult where
  forwarded : Option ConsumerMsg
  enqueued : Option PredictionRecord
deriving DecidableEq, Repr

/-- One iteration of receive_from_consumer (src/app/api/websocket.py lines
148-167) for the consumer bound to user_id. now is the clock read for the
record timestamp; send_ok is whether send_to_edge delivered. A prediction
message is forwarded whole; only on delivered = true is a PredictionRecord
enqueued, with msg.get defaults azure_ml and azure_unknown, data defaulting
to the empty object, confidence read from data.confidence, session_id and
version passed through as-is (None when absent). Other types do nothing. -/
def receive_from_consumer_step (user_id : String) (now : Nat) (send_ok : Bool)
    (msg : ConsumerMsg) : ConsumerStepResult :=
  if msg.type = some "prediction" then
    { forwarded := some msg,
      enqueued :=
        if send_ok then
          some { timestamp := now,
                 session_id := msg.session_id,
                 user_id := user_id,
                 prediction_type := msg.prediction_type.getD "azure_ml",
                 classifier_name := msg.classifier_name.getD "azure_unknown",
                 data := msg.data.getD [],
                 confidence := jGet (msg.data.getD []) "confidence",
                 classifier_version := msg.version,
                 processing_time_ms := none }
        else none }
  else { forwarded := none, enqueued := none }

/-- C9. For every inbound consumer message of type prediction: the full
object is handed to send_to_edge for the bound user_id; a PredictionRecord
is enqueued exactly when that delivery succeeds; an absent prediction_type
is stored as azure_ml and an absent classifier_name as azure_unknown; and
the record confidence is read from the confidence key of the data object
when data is present. -/
theorem consumer_prediction_forward_then_persist (user_id : String)
    (now : Nat) (send_ok : Bool) (msg : ConsumerMsg)
    (h : msg.type = some "prediction") :
    (receive_from_consumer_step user_id now send_ok msg).forwarded
        = some msg ∧
      ((receive_from_consumer_step user_id now send_ok msg).enqueued.isSome
        ↔ send_ok = true) ∧
      (msg.prediction_type = none →
        (receive_from_consumer_step user_id now true msg).enqueued.map
            (fun r => r.prediction_type) = some "azure_ml") ∧
      (msg.classifier_name = none →
        (receive_from_consumer_step user_id now true msg).enqueued.map
            (fun r => r.classifier_name) = some "azure_unknown") ∧
      (∀ d : JObj, msg.data = some d →
        (receive_from_consumer_step user_id now true msg).enqueued.map
            (fun r => r.confidence) = some (jGet d "confidence")) := by
  refine ⟨?_, ?_, ?_, ?_, ?_⟩
  · simp [receive_from_consumer_step, h]
  · cases send_ok <;> simp [receive_from_consumer_step, h]
  · intro hp
    simp [receive_from_consumer_step, h, hp]
  · intro hc
    simp [receive_from_consumer_step, h, hc]
  · intro d hd
    simp [receive_from_consumer_step, h, hd]

/-- A concrete consumer prediction message with only type and data set. -/
def predMsgBare : ConsumerMsg :=
  { type := some "prediction", prediction_type := none,
    classifier_name := none, session_id := none,
    data := some [("confidence", JLit.num 1)], version := none }

/-- Closed witness for the C9 theorem at a concrete prediction message. -/
theorem consumer_prediction_forward_then_persist_witness :
    (receive_from_consumer_step "u1" 7 true predMsgBare).forwarded
        = some predMsgBare ∧
      (receive_from_consumer_step "u1" 7 true predMsgBare).enqueued.map
          (fun r => r.prediction_type) = some "azure_ml" := by
  exact ⟨(consumer_prediction_forward_then_persist "u1" 7 true predMsgBare
      rfl).1,
    (consumer_prediction_forward_then_persist "u1" 7 true predMsgBare
      rfl).2.2.1 rfl⟩

/-- Non-null constraint of the predictions table on session_id
(src/app/db/models.py lines 98-100: Column nullable equals False): a queued
record can only commit when its session_id is present. The other non-null
columns of the table are non-optional fields of PredictionRecord and hold by
construction. -/
def prediction_row_not_null_ok (r : PredictionRecord) : Bool :=
  r.session_id.isSome

/-- C10. A consumer prediction message with no session_id field is not
rejected and not defaulted: on successful delivery a PredictionRecord is
enqueued whose session_id is None, and that record violates the non-null
session_id constraint the predictions schema declares, so it can only fail
later, at flush time, never at enqueue time. Enqueueing into the persistence
queue itself is unconditional: add_prediction appends the record whatever
its fields, as the last conjunct shows below the batch threshold. -/
theorem consumer_prediction_missing_session_id (user_id : String) (now : Nat)
    (msg : ConsumerMsg) (s : PersistenceState) (r : PredictionRecord)
    (h : msg.type = some "prediction") (hs : msg.session_id = none)
    (hb : s.prediction_buffer.length + 1 < s.batch_size) :
    (receive_from_consumer_step user_id now true msg).enqueued.map
        (fun q => q.session_id) = some none ∧
      (receive_from_consumer_step user_id now true msg).enqueued.map
          prediction_row_not_null_ok = some false ∧
      (add_prediction true r s).prediction_buffer
        = s.prediction_buffer ++ [r] := by
  refine ⟨?_, ?_, ?_⟩
  · simp [receive_from_consumer_step, h, hs]
  · simp [receive_from_consumer_step, prediction_row_not_null_ok, h, hs]
  · have hlt : ¬ s.batch_size ≤ s.prediction_buffer.length + 1 := by omega
    simp [add_prediction, hlt]

/-- Closed witness for the C10 theorem: predMsgBare has no session_id and a
49-record queue with batch size 50 is below threshold. -/
theorem consumer_prediction_missing_session_id_witness :
    (receive_from_consumer_step "u1" 7 true predMsgBare).enqueued.map
        (fun q => q.session_id) = some none := by
  exact (consumer_prediction_missing_session_id "u1" 7 predMsgBare ps0 recP2
    rfl rfl (by decide)).1
